import Mathlib

/-!
Shallow embedding of `src/vs/workbench/browser/layout.ts` (class `WorkbenchLayout`).

Numbers are modelled as rationals (JS numbers; all arithmetic in the source is
exact on the inputs of interest).  `Math.round` is modelled as `jsRound`
(floor of `x + 1/2`, which matches JS round-half-up semantics).

The external collaborators (part service, storage service, editor service,
browser zoom, the DOM client area) are modelled as an `Env` record of the
values they report; the mutable fields of the `WorkbenchLayout` instance are a
`State` record.  `layout()` becomes a pure function from options, environment
and state to a new state, the applied geometry of the six parts, and the list
of storage writes performed.
-/

namespace VSLayout

/-- Source constant `DEFAULT_MIN_SIDEBAR_PART_WIDTH = 170` (layout.ts:23). -/
def DEFAULT_MIN_SIDEBAR_PART_WIDTH : ℚ := 170

/-- Source constant `DEFAULT_MIN_PANEL_PART_HEIGHT = 77` (layout.ts:24). -/
def DEFAULT_MIN_PANEL_PART_HEIGHT : ℚ := 77

/-- Source constant `DEFAULT_MIN_EDITOR_PART_HEIGHT = 70` (layout.ts:25). -/
def DEFAULT_MIN_EDITOR_PART_HEIGHT : ℚ := 70

/-- Source constant `DEFAULT_MIN_EDITOR_PART_WIDTH = 220` (layout.ts:26). -/
def DEFAULT_MIN_EDITOR_PART_WIDTH : ℚ := 220

/-- Source constant `DEFAULT_PANEL_HEIGHT_COEFFICIENT = 0.4` (layout.ts:27). -/
def DEFAULT_PANEL_HEIGHT_COEFFICIENT : ℚ := 2 / 5

/-- Source constant `HIDE_SIDEBAR_WIDTH_THRESHOLD = 50` (layout.ts:28). -/
def HIDE_SIDEBAR_WIDTH_THRESHOLD : ℚ := 50

/-- Source constant `HIDE_PANEL_HEIGHT_THRESHOLD = 50` (layout.ts:29). -/
def HIDE_PANEL_HEIGHT_THRESHOLD : ℚ := 50

/-- JS `Math.round`: round half toward positive infinity. -/
def jsRound (q : ℚ) : ℚ := ((⌊q + 1 / 2⌋ : ℤ) : ℚ)

/-- `Position` enum of the part service: sidebar anchored left or right. -/
inductive Position where
  | LEFT
  | RIGHT
deriving DecidableEq

/-- The two storage keys used by `WorkbenchLayout`
(`workbench.sidebar.width` and `workbench.panel.height`, layout.ts:45-46). -/
inductive StoreKey where
  | sashXWidth
  | sashYHeight
deriving DecidableEq

/-- `Dimension` value (width/height pair). -/
structure Dimension where
  width : ℚ
  height : ℚ
deriving DecidableEq

/-- The `ComputedStyles` interface (layout.ts:31-38): minimum/fixed sizes read
from the rendered CSS of each part. -/
structure ComputedStyles where
  titlebarHeight : ℚ
  activitybarWidth : ℚ
  sidebarMinWidth : ℚ
  panelMinHeight : ℚ
  editorMinWidth : ℚ
  editorMinHeight : ℚ
  statusbarHeight : ℚ

/-- Values reported by the external collaborators during a `layout()` call or a
sash event: client area, visibility flags, sidebar position, number of visible
editors, browser zoom factor, the styles a forced `computeStyle()` would
produce, and the optimal width of the active viewlet (none when no viewlet is
active). -/
structure Env where
  clientWidth : ℚ
  clientHeight : ℚ
  isTitlebarHidden : Bool
  isPanelHidden : Bool
  isStatusbarHidden : Bool
  isSidebarHidden : Bool
  sidebarPosition : Position
  visibleEditorCount : ℕ
  zoomFactor : ℚ
  freshStyles : ComputedStyles
  activeViewletOptimalWidth : Option ℚ

/-- Mutable fields of the `WorkbenchLayout` instance (layout.ts:58-73).
`sidebarWidth` is the committed sidebar width (`-1` sentinel = unset, set in
the constructor from storage, layout.ts:119); `panelHeight` is the committed
panel height (`0` sentinel = unset, layout.ts:120).
`panelHeightBeforeMaximized` is declared `number` in the source and is only
ever read inside the maximize-toggle branch after having been written by a
previous toggle; it is modelled as a plain rational. -/
structure State where
  sidebarWidth : ℚ
  panelHeight : ℚ
  panelHeightBeforeMaximized : ℚ
  startSidebarWidth : ℚ
  startPanelHeight : ℚ
  startX : ℚ
  startY : ℚ
  computedStyles : ComputedStyles
  initialComputedStyles : ComputedStyles
  layoutEditorGroupsVertically : Bool
  workbenchWidth : ℚ
  workbenchHeight : ℚ
  statusbarHeight : ℚ
  titlebarHeight : ℚ
  sidebarHeight : ℚ
  activitybarWidth : ℚ
  panelWidth : ℚ

/-- `ILayoutOptions` (forceStyleRecompute / toggleMaximizedPanel). -/
structure ILayoutOptions where
  forceStyleRecompute : Bool
  toggleMaximizedPanel : Bool

/-- `layout()` called with no options. -/
def noOptions : ILayoutOptions := ⟨false, false⟩

/-- `layout({ toggleMaximizedPanel: true })`. -/
def togglePanelOptions : ILayoutOptions := ⟨false, true⟩

/-- A `position(top, right, bottom, left)` call on a part container; `none`
models a `null`/omitted argument. -/
structure PartPosition where
  top : Option ℚ
  right : Option ℚ
  bottom : Option ℚ
  left : Option ℚ
deriving DecidableEq

/-- The geometry `layout()` pushes to the six parts (sizes via `.size`, offsets
via `.position`, visibility via `.show`/`.hide`, and the dimension handed to
`titlebar.layout`). -/
structure Applied where
  titlebarVisible : Bool
  titlebarDim : Dimension
  editorSize : Dimension
  editorPos : PartPosition
  panelSize : Dimension
  panelPos : PartPosition
  activitybarHeight : ℚ
  activitybarPos : PartPosition
  sidebarSize : Dimension
  sidebarPos : PartPosition
  statusbarTop : ℚ
  statusbarVisible : Bool

/-- Sidebar width rule of `layout()` (layout.ts:344-353): result is the pair
(width used this call, committed `this.sidebarWidth` after the rule).
Hidden: width 0, committed untouched.  Committed set (not the `-1` sentinel):
`max(minWidth, committed)`.  Unset: one fifth of the workbench width, which is
also written back as the new committed value. -/
def computeSidebarWidth (isSidebarHidden : Bool) (committed minWidth workbenchWidth : ℚ) :
    ℚ × ℚ :=
  if isSidebarHidden then (0, committed)
  else if committed ≠ -1 then (max minWidth committed, committed)
  else (workbenchWidth / 5, workbenchWidth / 5)

/-- Panel height rule of `layout()` (layout.ts:366-374): 0 if hidden; committed
clamped into `[panel.minHeight, maxPanelHeight]` if the committed value is
positive; otherwise 40% of the sidebar height. -/
def computePanelHeight (isPanelHidden : Bool)
    (committed minHeight maxPanelHeight sidebarHeight : ℚ) : ℚ :=
  if isPanelHidden then 0
  else if 0 < committed then min maxPanelHeight (max minHeight committed)
  else sidebarHeight * DEFAULT_PANEL_HEIGHT_COEFFICIENT

/-- Maximize-toggle step of `layout()` (layout.ts:375-379): when requested,
swap the panel height with the clamped maximum (or restore the remembered
pre-maximize height if already at the maximum) and remember the height that
was swapped out.  Result: (panel height, `panelHeightBeforeMaximized`). -/
def applyMaximizeToggle (toggle : Bool)
    (panelHeight maxPanelHeight minHeight beforeMaximized : ℚ) : ℚ × ℚ :=
  if toggle then
    (if panelHeight = maxPanelHeight then
        max minHeight (min beforeMaximized maxPanelHeight)
      else maxPanelHeight,
     panelHeight)
  else (panelHeight, beforeMaximized)

/-- Width overflow correction of `layout()` (layout.ts:419-425): if the editor
is narrower than its (scaled) minimum, force it to the minimum, give the panel
the same width, and take the difference out of the sidebar, bounded below by
`DEFAULT_MIN_SIDEBAR_PART_WIDTH`.  Result: (editor width, panel width, sidebar
width). -/
def correctEditorWidth (editorWidth panelDimWidth editorMinWidth sidebarWidth : ℚ) :
    ℚ × ℚ × ℚ :=
  if editorWidth < editorMinWidth then
    (editorMinWidth, editorMinWidth,
     max DEFAULT_MIN_SIDEBAR_PART_WIDTH (sidebarWidth - (editorMinWidth - editorWidth)))
  else (editorWidth, panelDimWidth, sidebarWidth)

/-- Height overflow correction of `layout()` (layout.ts:427-432): if the editor
is shorter than its (scaled) minimum, force it to the minimum and take the
difference out of the panel, bounded below by
`DEFAULT_MIN_PANEL_PART_HEIGHT`.  Result: (editor height, panel height). -/
def correctEditorHeight (editorHeight editorMinHeight panelDimHeight : ℚ) : ℚ × ℚ :=
  if editorHeight < editorMinHeight then
    (editorMinHeight,
     max DEFAULT_MIN_PANEL_PART_HEIGHT (panelDimHeight - (editorMinHeight - editorHeight)))
  else (editorHeight, panelDimHeight)

/-- Effective editor minimum width (layout.ts:408-417): multiplied by the
number of visible editors when more than one editor is open and editor groups
lay out vertically (side by side). -/
def scaledEditorMinWidth (styles : ComputedStyles) (visibleEditorCount : ℕ)
    (layoutEditorGroupsVertically : Bool) : ℚ :=
  if 1 < visibleEditorCount ∧ layoutEditorGroupsVertically then
    styles.editorMinWidth * visibleEditorCount
  else styles.editorMinWidth

/-- Effective editor minimum height (layout.ts:408-417): multiplied by the
number of visible editors when more than one editor is open and editor groups
stack horizontally. -/
def scaledEditorMinHeight (styles : ComputedStyles) (visibleEditorCount : ℕ)
    (layoutEditorGroupsVertically : Bool) : ℚ :=
  if 1 < visibleEditorCount ∧ ¬layoutEditorGroupsVertically then
    styles.editorMinHeight * visibleEditorCount
  else styles.editorMinHeight

/-- All the numbers computed by one `layout()` call (layout.ts:324-442), in
source order.  Fields named `...0`/`...1` are intermediate values that a later
step of the source overwrites. -/
structure LayoutNums where
  styles : ComputedStyles
  workbenchWidth : ℚ
  workbenchHeight : ℚ
  sidebarWidth0 : ℚ
  sidebarCommitted0 : ℚ
  statusbarHeight : ℚ
  titlebarHeight : ℚ
  sidebarHeight : ℚ
  activitybarWidth : ℚ
  maxPanelHeight : ℚ
  panelHeightPreToggle : ℚ
  panelHeight1 : ℚ
  panelHeightBeforeMaximized : ℚ
  panelDimWidth0 : ℚ
  editorWidth1 : ℚ
  editorHeight0 : ℚ
  remainderLeft : ℚ
  remainderRight : ℚ
  editorMinWidth : ℚ
  editorMinHeight : ℚ
  editorWidth : ℚ
  panelDimWidth : ℚ
  sidebarWidthFinal : ℚ
  editorHeight : ℚ
  panelDimHeight : ℚ

/-- The computation core of `layout()` (layout.ts:324-432), transcribed in
source order.  The statusbar/titlebar heights come from the style snapshot
(titlebar from the initial snapshot, divided by the zoom factor,
layout.ts:355-356); the unnamed `Math.min` for the hidden-sidebar editor width
mirrors layout.ts:396 where both operands are equal. -/
def layoutNums (opts : ILayoutOptions) (env : Env) (s : State) : LayoutNums :=
  let styles := if opts.forceStyleRecompute then env.freshStyles else s.computedStyles
  let workbenchWidth := env.clientWidth
  let workbenchHeight := env.clientHeight
  let sb := computeSidebarWidth env.isSidebarHidden s.sidebarWidth styles.sidebarMinWidth
    workbenchWidth
  let statusbarHeight := if env.isStatusbarHidden then 0 else styles.statusbarHeight
  let titlebarHeight :=
    if env.isTitlebarHidden then 0
    else s.initialComputedStyles.titlebarHeight / env.zoomFactor
  let sidebarHeight := workbenchHeight - statusbarHeight - titlebarHeight
  let activitybarWidth := styles.activitybarWidth
  let maxPanelHeight := sidebarHeight - DEFAULT_MIN_EDITOR_PART_HEIGHT
  let panelHeightPreToggle := computePanelHeight env.isPanelHidden s.panelHeight
    styles.panelMinHeight maxPanelHeight sidebarHeight
  let pt := applyMaximizeToggle opts.toggleMaximizedPanel panelHeightPreToggle maxPanelHeight
    styles.panelMinHeight s.panelHeightBeforeMaximized
  let panelDimWidth0 := workbenchWidth - sb.1 - activitybarWidth
  let editorWidth1 :=
    if env.isSidebarHidden then
      min (workbenchWidth - activitybarWidth) (workbenchWidth - activitybarWidth)
    else panelDimWidth0
  let editorHeight0 := sidebarHeight - pt.1
  let halfRemainder := jsRound ((workbenchWidth - editorWidth1 + activitybarWidth) / 2)
  let remainderLeft :=
    if env.isSidebarHidden then
      if env.sidebarPosition = Position.LEFT then halfRemainder
      else workbenchWidth - editorWidth1 - halfRemainder
    else 0
  let remainderRight :=
    if env.isSidebarHidden then
      if env.sidebarPosition = Position.LEFT then workbenchWidth - editorWidth1 - halfRemainder
      else halfRemainder
    else 0
  let editorMinWidth := scaledEditorMinWidth styles env.visibleEditorCount
    s.layoutEditorGroupsVertically
  let editorMinHeight := scaledEditorMinHeight styles env.visibleEditorCount
    s.layoutEditorGroupsVertically
  let cw := correctEditorWidth editorWidth1 panelDimWidth0 editorMinWidth sb.1
  let ch := correctEditorHeight editorHeight0 editorMinHeight pt.1
  { styles := styles
    workbenchWidth := workbenchWidth
    workbenchHeight := workbenchHeight
    sidebarWidth0 := sb.1
    sidebarCommitted0 := sb.2
    statusbarHeight := statusbarHeight
    titlebarHeight := titlebarHeight
    sidebarHeight := sidebarHeight
    activitybarWidth := activitybarWidth
    maxPanelHeight := maxPanelHeight
    panelHeightPreToggle := panelHeightPreToggle
    panelHeight1 := pt.1
    panelHeightBeforeMaximized := pt.2
    panelDimWidth0 := panelDimWidth0
    editorWidth1 := editorWidth1
    editorHeight0 := editorHeight0
    remainderLeft := remainderLeft
    remainderRight := remainderRight
    editorMinWidth := editorMinWidth
    editorMinHeight := editorMinHeight
    editorWidth := cw.1
    panelDimWidth := cw.2.1
    sidebarWidthFinal := cw.2.2
    editorHeight := ch.1
    panelDimHeight := ch.2 }

/-- The geometry pushed to the parts at the end of `layout()`
(layout.ts:458-519), as a function of the computed numbers. -/
def layoutApplied (env : Env) (n : LayoutNums) : Applied :=
  let editorBottom := n.statusbarHeight + n.panelDimHeight
  let editorPos : PartPosition :=
    if env.isSidebarHidden then
      ⟨some n.titlebarHeight, some n.remainderRight, some editorBottom, some n.remainderLeft⟩
    else if env.sidebarPosition = Position.LEFT then
      ⟨some n.titlebarHeight, some 0, some editorBottom,
       some (n.sidebarWidthFinal + n.activitybarWidth)⟩
    else
      ⟨some n.titlebarHeight, some n.sidebarWidthFinal, some editorBottom, some 0⟩
  let panelPos : PartPosition :=
    if env.isSidebarHidden then
      ⟨some (n.editorHeight + n.titlebarHeight), some n.remainderRight,
       some n.statusbarHeight, some n.remainderLeft⟩
    else if env.sidebarPosition = Position.LEFT then
      ⟨some (n.editorHeight + n.titlebarHeight), some 0, some n.statusbarHeight,
       some (n.sidebarWidthFinal + n.activitybarWidth)⟩
    else
      ⟨some (n.editorHeight + n.titlebarHeight), some n.sidebarWidthFinal,
       some n.statusbarHeight, some 0⟩
  let activitybarPos : PartPosition :=
    if env.sidebarPosition = Position.LEFT then
      ⟨some n.titlebarHeight, none, some 0, some 0⟩
    else
      ⟨some n.titlebarHeight, some 0, some 0, none⟩
  let sidebarPos : PartPosition :=
    if env.sidebarPosition = Position.LEFT then
      ⟨some n.titlebarHeight, some n.editorWidth, some 0, some n.activitybarWidth⟩
    else
      ⟨some n.titlebarHeight, none, some 0, some n.editorWidth⟩
  { titlebarVisible := !env.isTitlebarHidden
    titlebarDim := ⟨n.workbenchWidth, n.titlebarHeight⟩
    editorSize := ⟨n.editorWidth, n.editorHeight⟩
    editorPos := editorPos
    panelSize := ⟨n.panelDimWidth, n.panelDimHeight⟩
    panelPos := panelPos
    activitybarHeight := n.sidebarHeight
    activitybarPos := activitybarPos
    sidebarSize := ⟨n.sidebarWidthFinal, n.sidebarHeight⟩
    sidebarPos := sidebarPos
    statusbarTop := n.workbenchHeight - n.statusbarHeight
    statusbarVisible := !env.isStatusbarHidden }

/-- The instance fields `layout()` writes back (layout.ts:336, 352, 355-358,
362, 381, 378, 434-442): cached geometry, the committed sidebar width (updated
at layout.ts:352 in the unset branch and overwritten at layout.ts:435 whenever
the sidebar is visible) and the committed panel height (layout.ts:440, only
when the panel is visible).  `panelWidth` keeps the pre-correction panel width
(layout.ts:381 runs before the correction at layout.ts:422). -/
def layoutState (env : Env) (s : State) (n : LayoutNums) : State :=
  { s with
    computedStyles := n.styles
    workbenchWidth := n.workbenchWidth
    workbenchHeight := n.workbenchHeight
    statusbarHeight := n.statusbarHeight
    titlebarHeight := n.titlebarHeight
    sidebarHeight := n.sidebarHeight
    activitybarWidth := n.activitybarWidth
    panelWidth := n.panelDimWidth0
    panelHeightBeforeMaximized := n.panelHeightBeforeMaximized
    sidebarWidth := if env.isSidebarHidden then n.sidebarCommitted0 else n.sidebarWidthFinal
    panelHeight := if env.isPanelHidden then s.panelHeight else n.panelDimHeight }

/-- Storage writes performed by `layout()` (layout.ts:434-442): the sidebar
width whenever the sidebar is visible, the panel height whenever the panel is
visible — regardless of whether the value changed. -/
def layoutWrites (env : Env) (n : LayoutNums) : List (StoreKey × ℚ) :=
  (if env.isSidebarHidden then [] else [(StoreKey.sashXWidth, n.sidebarWidthFinal)]) ++
  (if env.isPanelHidden then [] else [(StoreKey.sashYHeight, n.panelDimHeight)])

/-- Result of one `layout()` call. -/
structure LayoutResult where
  state : State
  applied : Applied
  writes : List (StoreKey × ℚ)

/-- `WorkbenchLayout.layout(options?)` (layout.ts:324-523). -/
def layout (opts : ILayoutOptions) (env : Env) (s : State) : LayoutResult :=
  let n := layoutNums opts env s
  ⟨layoutState env s n, layoutApplied env n, layoutWrites env n⟩

/-- A sash pointer event (`ISashEvent`): start and current coordinates. -/
structure ISashEvent where
  startX : ℚ
  currentX : ℚ
  startY : ℚ
  currentY : ℚ

/-- `sashX` `start` listener (layout.ts:135-138): snapshot the committed
sidebar width and the pointer start coordinate. -/
def sashXStart (e : ISashEvent) (s : State) : State :=
  { s with startSidebarWidth := s.sidebarWidth, startX := e.startX }

/-- Effects of a sash `change`/`reset` listener: the new instance state,
a `setSideBarHidden` call if one was made, whether `layout()` was invoked, and
the storage writes performed. -/
structure SashResult where
  state : State
  setSideBarHidden : Option Bool
  didLayout : Bool
  writes : List (StoreKey × ℚ)

/-- `sashX` `change` listener (layout.ts:145-182). -/
def sashXChange (env : Env) (e : ISashEvent) (s : State) : SashResult :=
  let sidebarPosition := env.sidebarPosition
  let isSidebarHidden := env.isSidebarHidden
  let newSashWidth :=
    if sidebarPosition = Position.LEFT then s.startSidebarWidth + e.currentX - s.startX
    else s.startSidebarWidth - e.currentX + s.startX
  if !isSidebarHidden then
    if newSashWidth + HIDE_SIDEBAR_WIDTH_THRESHOLD < s.computedStyles.sidebarMinWidth then
      let dragCompensation := DEFAULT_MIN_SIDEBAR_PART_WIDTH - HIDE_SIDEBAR_WIDTH_THRESHOLD
      let newStartX :=
        if sidebarPosition = Position.LEFT then
          max s.activitybarWidth (e.currentX - dragCompensation)
        else min (e.currentX + dragCompensation) (s.workbenchWidth - s.activitybarWidth)
      { state := { s with startX := newStartX, sidebarWidth := s.startSidebarWidth }
        setSideBarHidden := some true
        didLayout := false
        writes := [] }
    else
      { state := { s with sidebarWidth := max s.computedStyles.sidebarMinWidth newSashWidth }
        setSideBarHidden := none
        didLayout := decide (s.computedStyles.sidebarMinWidth ≤ newSashWidth)
        writes := [] }
  else
    if (sidebarPosition = Position.LEFT ∧
          s.computedStyles.sidebarMinWidth ≤ e.currentX - s.startX) ∨
       (sidebarPosition = Position.RIGHT ∧
          s.computedStyles.sidebarMinWidth ≤ s.startX - e.currentX) then
      { state := { s with
          startSidebarWidth := s.computedStyles.sidebarMinWidth -
            (if sidebarPosition = Position.LEFT then e.currentX - s.startX
             else s.startX - e.currentX)
          sidebarWidth := s.computedStyles.sidebarMinWidth }
        setSideBarHidden := some false
        didLayout := false
        writes := [] }
    else
      { state := s, setSideBarHidden := none, didLayout := false, writes := [] }

/-- `sashX` `reset` listener (layout.ts:236-243): restore the sidebar width to
`max(DEFAULT_MIN_SIDEBAR_PART_WIDTH, optimalWidth || 0)`, persist it, show the
sidebar, and trigger a layout. -/
def sashXReset (env : Env) (s : State) : SashResult :=
  let optimalWidth := env.activeViewletOptimalWidth.getD 0
  let newWidth := max DEFAULT_MIN_SIDEBAR_PART_WIDTH optimalWidth
  { state := { s with sidebarWidth := newWidth }
    setSideBarHidden := some false
    didLayout := true
    writes := [(StoreKey.sashXWidth, newWidth)] }

/-- A concrete style snapshot used by the scenario inputs below: titlebar 30,
activity bar 48, sidebar min 170, panel min 77, editor min 220×70,
statusbar 22 (the documented defaults of `computeStyle`, layout.ts:296-316). -/
def stylesA : ComputedStyles := ⟨30, 48, 170, 77, 220, 70, 22⟩

/-- A baseline instance state: committed sidebar width 300, committed panel
height 200, style snapshot `stylesA`, vertical editor groups. -/
def baseState : State :=
  ⟨300, 200, 0, 0, 0, 0, 0, stylesA, stylesA, true, 0, 0, 0, 0, 0, 0, 0⟩

/-- A baseline environment: 1200×800 client area, everything visible, sidebar
left, one editor, zoom 1. -/
def baseEnv : Env :=
  ⟨1200, 800, false, false, false, false, Position.LEFT, 1, 1, stylesA, none⟩

/-- Environment of the C4 editor-overflow scenario: 800×600 client area,
panel hidden, two visible editors, sidebar visible on the left. -/
def envOverflow : Env :=
  { baseEnv with
    clientWidth := 800
    clientHeight := 600
    isPanelHidden := true
    visibleEditorCount := 2 }

/-- State of the C4 editor-overflow scenario: committed sidebar width 600. -/
def sOverflow : State := { baseState with sidebarWidth := 600 }

/-- Environment of the C7 counterexample: 1500×100 client area, titlebar,
statusbar and sidebar hidden, panel visible. -/
def envShort : Env :=
  { baseEnv with
    clientWidth := 1500
    clientHeight := 100
    isTitlebarHidden := true
    isStatusbarHidden := true
    isSidebarHidden := true }

/-- State of the C7 counterexample: committed panel height unset (0). -/
def sPanelUnset : State := { baseState with panelHeight := 0 }

/-- State of the C3 counterexample: committed sidebar width unset (-1). -/
def sSidebarUnset : State := { baseState with sidebarWidth := -1 }

/-- Environment of the C3 counterexample: 800×600, panel hidden, sidebar
visible; one fifth of the width (160) is below the 170 sidebar minimum. -/
def envFifth : Env :=
  { baseEnv with
    clientWidth := 800
    clientHeight := 600
    isPanelHidden := true }

/-- Environment of the C5 counterexample: 1500×150 client area, titlebar,
statusbar and sidebar hidden, panel visible. -/
def envRoundtrip : Env :=
  { baseEnv with
    clientWidth := 1500
    clientHeight := 150
    isTitlebarHidden := true
    isStatusbarHidden := true
    isSidebarHidden := true }

/-- Claim C6: in `layout()`, the sidebar width is 0 when the sidebar is
hidden; otherwise `max(minWidth, committedWidth)` when the committed width is
not the `-1` sentinel; otherwise one fifth of the container width, which is
also stored as the new committed baseline (the committed value is untouched in
the other cases at this point of the call). -/
theorem layout_sidebar_width_rule (env : Env) (s : State) :
    (layoutNums noOptions env s).sidebarWidth0 =
      (if env.isSidebarHidden then 0
       else if s.sidebarWidth ≠ -1 then max s.computedStyles.sidebarMinWidth s.sidebarWidth
       else env.clientWidth / 5) ∧
    (layoutNums noOptions env s).sidebarCommitted0 =
      (if env.isSidebarHidden = false ∧ s.sidebarWidth = -1 then env.clientWidth / 5
       else s.sidebarWidth) := by
  cases h : env.isSidebarHidden <;>
    by_cases hc : s.sidebarWidth = -1 <;>
      simp [layoutNums, computeSidebarWidth, noOptions, h, hc]

/-- Witness for C6 at a concrete input: hidden committed -1 gives width 0 and
keeps the sentinel untouched. -/
theorem layout_sidebar_width_rule_witness :
    (layoutNums noOptions baseEnv { baseState with sidebarWidth := -1 }).sidebarWidth0 =
      1200 / 5 := by
  have h := layout_sidebar_width_rule baseEnv { baseState with sidebarWidth := -1 }
  rw [h.1]
  norm_num [baseEnv, baseState]

/-- Claim C2: width-axis drag hysteresis.  When the sidebar is visible, a
`change` event whose proposed width is `minWidth − HIDE_SIDEBAR_WIDTH_THRESHOLD − 1`
hides the sidebar; when it is hidden, dragging past `minWidth` in the opening
direction re-shows it with the committed width set to exactly `minWidth`. -/
theorem sashX_hysteresis :
    (∀ (env : Env) (e : ISashEvent) (s : State), env.isSidebarHidden = false →
      (if env.sidebarPosition = Position.LEFT then s.startSidebarWidth + e.currentX - s.startX
       else s.startSidebarWidth - e.currentX + s.startX) =
        s.computedStyles.sidebarMinWidth - HIDE_SIDEBAR_WIDTH_THRESHOLD - 1 →
      (sashXChange env e s).setSideBarHidden = some true) ∧
    (∀ (env : Env) (e : ISashEvent) (s : State), env.isSidebarHidden = true →
      s.computedStyles.sidebarMinWidth ≤
        (if env.sidebarPosition = Position.LEFT then e.currentX - s.startX
         else s.startX - e.currentX) →
      (sashXChange env e s).setSideBarHidden = some false ∧
        (sashXChange env e s).state.sidebarWidth = s.computedStyles.sidebarMinWidth) := by
  constructor
  · intro env e s hv h
    have hlt : (if env.sidebarPosition = Position.LEFT
          then s.startSidebarWidth + e.currentX - s.startX
          else s.startSidebarWidth - e.currentX + s.startX) + HIDE_SIDEBAR_WIDTH_THRESHOLD <
        s.computedStyles.sidebarMinWidth := by
      rw [h]; unfold HIDE_SIDEBAR_WIDTH_THRESHOLD; linarith
    simp only [sashXChange, hv, Bool.not_false, if_true, hlt, if_pos]
  · intro env e s hv h
    cases hp : env.sidebarPosition <;> simp [hp] at h <;>
      simp [sashXChange, hv, hp, h]

/-- Witness for C2 at concrete inputs: minWidth 170, visible drag to proposed
width 119 hides; hidden drag by 171 ≥ 170 re-shows with committed width 170. -/
theorem sashX_hysteresis_witness :
    (sashXChange baseEnv ⟨0, 119, 0, 0⟩ { baseState with startSidebarWidth := 0, startX := 0 }).setSideBarHidden = some true ∧
    (sashXChange { baseEnv with isSidebarHidden := true } ⟨0, 171, 0, 0⟩ { baseState with startX := 0 }).state.sidebarWidth = 170 := by
  constructor
  · exact sashX_hysteresis.1 baseEnv ⟨0, 119, 0, 0⟩ _ (by norm_num [baseEnv]) (by norm_num [baseEnv, baseState, stylesA, HIDE_SIDEBAR_WIDTH_THRESHOLD])
  · exact (sashX_hysteresis.2 { baseEnv with isSidebarHidden := true } ⟨0, 171, 0, 0⟩ _ (by norm_num [baseEnv]) (by norm_num [baseEnv, baseState, stylesA])).2

/-- Claim C8: the width-axis `reset` event with no active viewlet sets the
committed sidebar width to exactly `DEFAULT_MIN_SIDEBAR_PART_WIDTH` (170),
persists that value to the store, and makes the sidebar visible. -/
theorem sashXReset_no_viewlet (env : Env) (s : State)
    (h : env.activeViewletOptimalWidth = none) :
    (sashXReset env s).state.sidebarWidth = DEFAULT_MIN_SIDEBAR_PART_WIDTH ∧
    (sashXReset env s).writes = [(StoreKey.sashXWidth, DEFAULT_MIN_SIDEBAR_PART_WIDTH)] ∧
    (sashXReset env s).setSideBarHidden = some false := by
  have h0 : max DEFAULT_MIN_SIDEBAR_PART_WIDTH (0 : ℚ) = DEFAULT_MIN_SIDEBAR_PART_WIDTH := by
    unfold DEFAULT_MIN_SIDEBAR_PART_WIDTH; norm_num
  simp [sashXReset, h, h0]

/-- Witness for C8 at a concrete input. -/
theorem sashXReset_no_viewlet_witness :
    (sashXReset baseEnv baseState).state.sidebarWidth = 170 := by
  have h := (sashXReset_no_viewlet baseEnv baseState (by norm_num [baseEnv])).1
  rw [h]; norm_num [DEFAULT_MIN_SIDEBAR_PART_WIDTH]

/-- Claim C10: when a width-axis drag (started by a `start` event, then a
`change` event) crosses the hide threshold, the sidebar is auto-hidden and the
committed sidebar width is reset to the width the drag started from, so a
later visibility toggle restores the pre-drag width rather than the last
provisional drag width. -/
theorem sashX_hide_restores_predrag (env : Env) (e1 e2 : ISashEvent) (s : State)
    (hv : env.isSidebarHidden = false)
    (hthr : (if env.sidebarPosition = Position.LEFT
        then s.sidebarWidth + e2.currentX - e1.startX
        else s.sidebarWidth - e2.currentX + e1.startX) + HIDE_SIDEBAR_WIDTH_THRESHOLD <
        s.computedStyles.sidebarMinWidth) :
    (sashXChange env e2 (sashXStart e1 s)).state.sidebarWidth = s.sidebarWidth ∧
    (sashXChange env e2 (sashXStart e1 s)).setSideBarHidden = some true := by
  simp only [sashXStart] at hthr ⊢
  simp [sashXChange, hv, hthr]

/-- Witness for C10 at a concrete input: committed width 300, drag from x = 0
to x = −200 proposes 100, 100 + 50 < 170, so the sidebar hides and the
committed width stays 300. -/
theorem sashX_hide_restores_predrag_witness :
    (sashXChange baseEnv ⟨0, -200, 0, 0⟩ (sashXStart ⟨0, 0, 0, 0⟩ baseState)).state.sidebarWidth = 300 := by
  have h := (sashX_hide_restores_predrag baseEnv ⟨0, 0, 0, 0⟩ ⟨0, -200, 0, 0⟩ baseState
    (by norm_num [baseEnv])
    (by norm_num [baseEnv, baseState, stylesA, HIDE_SIDEBAR_WIDTH_THRESHOLD])).1
  rw [h]; norm_num [baseState]

/-- Claim C9: every `layout()` call appends the final sidebar width to the
store whenever the sidebar is visible, and the final panel height whenever the
panel is visible — unconditionally, i.e. even when the stored value would be
unchanged; when a part is hidden, both its committed size and its stored value
are left alone (no write with its key occurs). -/
theorem layout_store_discipline (opts : ILayoutOptions) (env : Env) (s : State) :
    (env.isSidebarHidden = false →
      (StoreKey.sashXWidth, (layoutNums opts env s).sidebarWidthFinal) ∈
        (layout opts env s).writes) ∧
    (env.isSidebarHidden = true →
      (layout opts env s).state.sidebarWidth = s.sidebarWidth ∧
      ∀ v : ℚ, (StoreKey.sashXWidth, v) ∉ (layout opts env s).writes) ∧
    (env.isPanelHidden = false →
      (StoreKey.sashYHeight, (layoutNums opts env s).panelDimHeight) ∈
        (layout opts env s).writes) ∧
    (env.isPanelHidden = true →
      (layout opts env s).state.panelHeight = s.panelHeight ∧
      ∀ v : ℚ, (StoreKey.sashYHeight, v) ∉ (layout opts env s).writes) := by
  refine ⟨fun h => ?_, fun h => ⟨?_, fun v => ?_⟩, fun h => ?_, fun h => ⟨?_, fun v => ?_⟩⟩
  · simp [layout, layoutWrites, h]
  · simp [layout, layoutState, layoutNums, computeSidebarWidth, ‹env.isSidebarHidden = true›]
  · simp [layout, layoutWrites, ‹env.isSidebarHidden = true›]
  · cases hs : env.isSidebarHidden <;> simp [layout, layoutWrites, hs, h]
  · simp [layout, layoutState, ‹env.isPanelHidden = true›]
  · cases hs : env.isSidebarHidden <;>
      simp [layout, layoutWrites, hs, ‹env.isPanelHidden = true›]

/-- Witness for C9 at the baseline input (everything visible). -/
theorem layout_store_discipline_witness :
    (StoreKey.sashXWidth, (layoutNums noOptions baseEnv baseState).sidebarWidthFinal) ∈
      (layout noOptions baseEnv baseState).writes := by
  exact (layout_store_discipline noOptions baseEnv baseState).1 (by norm_num [baseEnv])

/-- Claim C4: editor-overflow correction.  With container width 800, committed
sidebar width 600, two visible editors laid out side by side and editor
minimum width 220, `layout()` raises the editor (Main) width to the scaled
minimum 440 and shrinks the sidebar to 312 = 800 − 48 − 440 to compensate,
which respects the lower bound `DEFAULT_MIN_SIDEBAR_PART_WIDTH` = 170. -/
theorem layout_editor_overflow :
    (layout noOptions envOverflow sOverflow).applied.editorSize.width = 440 ∧
    (layout noOptions envOverflow sOverflow).applied.sidebarSize.width = 312 ∧
    DEFAULT_MIN_SIDEBAR_PART_WIDTH ≤
      (layout noOptions envOverflow sOverflow).applied.sidebarSize.width := by
  norm_num [layout, layoutNums, layoutApplied, computeSidebarWidth, computePanelHeight,
    applyMaximizeToggle, correctEditorWidth, correctEditorHeight, scaledEditorMinWidth,
    scaledEditorMinHeight, envOverflow, sOverflow, baseEnv, baseState, stylesA, noOptions,
    jsRound, max_def, min_def, DEFAULT_MIN_SIDEBAR_PART_WIDTH, DEFAULT_MIN_PANEL_PART_HEIGHT,
    DEFAULT_MIN_EDITOR_PART_HEIGHT, DEFAULT_MIN_EDITOR_PART_WIDTH,
    DEFAULT_PANEL_HEIGHT_COEFFICIENT]

/-- Helper: the width overflow correction preserves the horizontal partition
sidebar + rail + editor = container width, provided either the container can
accommodate the 170 sidebar floor next to rail and editor minimum, or no
correction is needed. -/
theorem correctEditorWidth_partition (W rail sMW sw0 ew1 pdw0 : ℚ)
    (h1 : ew1 = W - sw0 - rail)
    (h2 : DEFAULT_MIN_SIDEBAR_PART_WIDTH ≤ W - rail - sMW ∨ sMW ≤ ew1) :
    (correctEditorWidth ew1 pdw0 sMW sw0).2.2 + rail +
      (correctEditorWidth ew1 pdw0 sMW sw0).1 = W := by
  unfold correctEditorWidth
  split_ifs with h
  · rcases h2 with h2 | h2
    · have : max DEFAULT_MIN_SIDEBAR_PART_WIDTH (sw0 - (sMW - ew1)) = W - rail - sMW := by
        rw [h1]
        rw [max_eq_right]
        · ring
        · linarith
      simp only [this]
      ring
    · linarith
  · rw [h1]; ring

/-- Helper: the height overflow correction preserves the vertical partition
titlebar + editor + panel + statusbar = container height, provided either the
container can accommodate the 77 panel floor on top of the editor minimum, or
no correction is needed. -/
theorem correctEditorHeight_partition (H st tb sMH ph1 : ℚ)
    (h2 : DEFAULT_MIN_PANEL_PART_HEIGHT ≤ H - st - tb - sMH ∨ sMH ≤ H - st - tb - ph1) :
    tb + (correctEditorHeight (H - st - tb - ph1) sMH ph1).1 +
      (correctEditorHeight (H - st - tb - ph1) sMH ph1).2 + st = H := by
  unfold correctEditorHeight
  split_ifs with h
  · rcases h2 with h2 | h2
    · have : max DEFAULT_MIN_PANEL_PART_HEIGHT (ph1 - (sMH - (H - st - tb - ph1))) =
          H - st - tb - sMH := by
        rw [max_eq_right]
        · ring
        · linarith
      simp only [this]
      ring
    · linarith
  · ring

/-- Helper: `applyMaximizeToggle` with no toggle requested is the identity. -/
theorem applyMaximizeToggle_false (a b c d : ℚ) : applyMaximizeToggle false a b c d = (a, d) := by
  simp [applyMaximizeToggle]

/-- Claim C1: for every container size at least the sum of the regions'
minimum sizes (hidden regions contributing 0; the sidebar minimum is its style
minimum or the 170 default floor, whichever is larger; the panel minimum
likewise with the 77 floor; the editor minima are the per-editor scaled ones),
after `layout()` the horizontal partition Side + Rail + Main = container width
holds, and the vertical partition Top + Main + Bottom + Status = container
height holds. -/
theorem layout_partition (env : Env) (s : State)
    (hW : (if env.isSidebarHidden then 0
           else max s.computedStyles.sidebarMinWidth DEFAULT_MIN_SIDEBAR_PART_WIDTH) +
          s.computedStyles.activitybarWidth +
          scaledEditorMinWidth s.computedStyles env.visibleEditorCount
            s.layoutEditorGroupsVertically ≤ env.clientWidth)
    (hH : (layoutNums noOptions env s).titlebarHeight +
          (layoutNums noOptions env s).statusbarHeight +
          (if env.isPanelHidden then 0
           else max s.computedStyles.panelMinHeight DEFAULT_MIN_PANEL_PART_HEIGHT) +
          scaledEditorMinHeight s.computedStyles env.visibleEditorCount
            s.layoutEditorGroupsVertically ≤ env.clientHeight) :
    (layout noOptions env s).applied.sidebarSize.width +
      (layoutNums noOptions env s).activitybarWidth +
      (layout noOptions env s).applied.editorSize.width = env.clientWidth ∧
    (layoutNums noOptions env s).titlebarHeight +
      (layout noOptions env s).applied.editorSize.height +
      (layout noOptions env s).applied.panelSize.height +
      (layoutNums noOptions env s).statusbarHeight = env.clientHeight := by
  have hMW := le_max_right s.computedStyles.sidebarMinWidth DEFAULT_MIN_SIDEBAR_PART_WIDTH
  have hMH := le_max_right s.computedStyles.panelMinHeight DEFAULT_MIN_PANEL_PART_HEIGHT
  simp only [layoutNums, noOptions, applyMaximizeToggle_false, Bool.false_eq_true,
    if_false] at hH
  simp only [layout, layoutApplied, layoutNums, noOptions, applyMaximizeToggle_false,
    Bool.false_eq_true, if_false]
  constructor
  · apply correctEditorWidth_partition
    · cases hsb : env.isSidebarHidden
      · simp [hsb]
      · simp [hsb, computeSidebarWidth]
    · cases hsb : env.isSidebarHidden
      · simp only [hsb] at hW ⊢
        left
        simp only [Bool.false_eq_true, if_false] at hW
        linarith
      · simp only [hsb] at hW ⊢
        right
        simp only [if_true, min_self, computeSidebarWidth] at hW ⊢
        linarith
  · apply correctEditorHeight_partition
    cases hp : env.isPanelHidden
    · simp only [hp] at hH ⊢
      left
      simp only [Bool.false_eq_true, if_false] at hH
      linarith
    · simp only [hp] at hH ⊢
      right
      simp only [if_true, computePanelHeight, hp] at hH ⊢
      linarith

/-- Witness for C1 at the baseline input (1200×800, everything visible,
committed sizes 300/200, minima 170/77/220/70, fixed 30/48/22). -/
theorem layout_partition_witness :
    (layout noOptions baseEnv baseState).applied.sidebarSize.width +
      (layoutNums noOptions baseEnv baseState).activitybarWidth +
      (layout noOptions baseEnv baseState).applied.editorSize.width = baseEnv.clientWidth ∧
    (layoutNums noOptions baseEnv baseState).titlebarHeight +
      (layout noOptions baseEnv baseState).applied.editorSize.height +
      (layout noOptions baseEnv baseState).applied.panelSize.height +
      (layoutNums noOptions baseEnv baseState).statusbarHeight = baseEnv.clientHeight :=
  layout_partition baseEnv baseState
    (by norm_num [baseEnv, baseState, stylesA, scaledEditorMinWidth,
      DEFAULT_MIN_SIDEBAR_PART_WIDTH, max_def])
    (by norm_num [baseEnv, baseState, stylesA, scaledEditorMinHeight, layoutNums, noOptions,
      DEFAULT_MIN_PANEL_PART_HEIGHT, max_def])

/-- Counterexample to C7 as stated: with a 100-pixel-high container, hidden
titlebar/statusbar and an unset committed panel height, `layout()` applies
panel height 77 (the panel floor after the height correction), which exceeds
container height − editor minimum height = 100 − 70 = 30. -/
theorem layout_panel_bound_cex :
    ¬((layout noOptions envShort sPanelUnset).applied.panelSize.height ≤
      envShort.clientHeight - sPanelUnset.computedStyles.editorMinHeight) := by
  norm_num [layout, layoutNums, layoutApplied, computeSidebarWidth, computePanelHeight,
    applyMaximizeToggle, correctEditorWidth, correctEditorHeight, scaledEditorMinWidth,
    scaledEditorMinHeight, envShort, sPanelUnset, baseEnv, baseState, stylesA, noOptions,
    jsRound, max_def, min_def, DEFAULT_MIN_SIDEBAR_PART_WIDTH, DEFAULT_MIN_PANEL_PART_HEIGHT,
    DEFAULT_MIN_EDITOR_PART_HEIGHT, DEFAULT_MIN_EDITOR_PART_WIDTH,
    DEFAULT_PANEL_HEIGHT_COEFFICIENT]

/-- Helper: the (scaled) editor minimum height is at least the default 70 when
the style snapshot holds the default (which `computeStyle` always produces,
layout.ts:311). -/
theorem scaledEditorMinHeight_ge (styles : ComputedStyles) (count : ℕ) (vert : Bool)
    (h : styles.editorMinHeight = DEFAULT_MIN_EDITOR_PART_HEIGHT) :
    DEFAULT_MIN_EDITOR_PART_HEIGHT ≤ scaledEditorMinHeight styles count vert := by
  unfold scaledEditorMinHeight
  split_ifs with hc
  · rw [h]
    unfold DEFAULT_MIN_EDITOR_PART_HEIGHT
    have h1 : (1 : ℚ) ≤ (count : ℚ) := by exact_mod_cast hc.1.le
    nlinarith
  · rw [h]

/-- Helper: the panel height applied after the height correction never exceeds
the available height minus the default editor minimum, provided the scaled
editor minimum is at least the default and the available height carries the
panel floor plus the editor minimum. -/
theorem correctEditorHeight_le (sH sMH ph1 : ℚ)
    (h70 : DEFAULT_MIN_EDITOR_PART_HEIGHT ≤ sMH)
    (h147 : DEFAULT_MIN_PANEL_PART_HEIGHT + DEFAULT_MIN_EDITOR_PART_HEIGHT ≤ sH) :
    (correctEditorHeight (sH - ph1) sMH ph1).2 ≤ sH - DEFAULT_MIN_EDITOR_PART_HEIGHT := by
  unfold correctEditorHeight
  split_ifs with h
  · apply max_le <;> linarith
  · simp only
    linarith

/-- Claim C7 (amended): after every `layout()` call — committed, unset-default
and maximize branches alike — the applied panel height is at most container
height − editor minimum height, provided the style snapshot holds the default
editor minimum height 70 and the container height minus statusbar and titlebar
leaves room for the panel floor plus the editor minimum (77 + 70). -/
theorem layout_panel_height_bound (opts : ILayoutOptions) (env : Env) (s : State)
    (hmin : (layoutNums opts env s).styles.editorMinHeight = DEFAULT_MIN_EDITOR_PART_HEIGHT)
    (hst : 0 ≤ (layoutNums opts env s).statusbarHeight)
    (htb : 0 ≤ (layoutNums opts env s).titlebarHeight)
    (hsH : DEFAULT_MIN_PANEL_PART_HEIGHT + DEFAULT_MIN_EDITOR_PART_HEIGHT ≤
      (layoutNums opts env s).sidebarHeight) :
    (layout opts env s).applied.panelSize.height ≤
      env.clientHeight - (layoutNums opts env s).styles.editorMinHeight := by
  simp only [layoutNums] at hmin hst htb hsH
  simp only [layout, layoutApplied, layoutNums]
  rw [hmin]
  refine le_trans (correctEditorHeight_le _ _ _ (scaledEditorMinHeight_ge _ _ _ hmin) hsH) ?_
  linarith

/-- Witness for C7 (amended) at the baseline input. -/
theorem layout_panel_height_bound_witness :
    (layout noOptions baseEnv baseState).applied.panelSize.height ≤
      baseEnv.clientHeight - (layoutNums noOptions baseEnv baseState).styles.editorMinHeight :=
  layout_panel_height_bound noOptions baseEnv baseState
    (by norm_num [layoutNums, noOptions, baseEnv, baseState, stylesA,
      DEFAULT_MIN_EDITOR_PART_HEIGHT])
    (by norm_num [layoutNums, noOptions, baseEnv, baseState, stylesA])
    (by norm_num [layoutNums, noOptions, baseEnv, baseState, stylesA])
    (by norm_num [layoutNums, noOptions, baseEnv, baseState, stylesA,
      DEFAULT_MIN_PANEL_PART_HEIGHT, DEFAULT_MIN_EDITOR_PART_HEIGHT])

/-- Helper: the committed sidebar width written back by a visible-sidebar
`layout()` call is nonnegative (it is at least `min-width` or at least the 170
floor). -/
theorem sidebar_final_nonneg (c minW rail W sMW : ℚ) (h0 : 0 ≤ minW) :
    0 ≤ (correctEditorWidth (W - max minW c - rail) (W - max minW c - rail) sMW
      (max minW c)).2.2 := by
  unfold correctEditorWidth DEFAULT_MIN_SIDEBAR_PART_WIDTH
  split_ifs with h
  · simp only
    have := le_max_left (170 : ℚ) (max minW c - (sMW - (W - max minW c - rail)))
    linarith
  · simp only
    have := le_max_left minW c
    linarith

/-- Helper: re-running the visible-sidebar width pipeline from the committed
width it produced yields the same applied triple (editor width, panel width,
sidebar width).  This is the horizontal half of the idempotence argument. -/
theorem sidebar_visible_stable (c minW rail W sMW : ℚ) :
    correctEditorWidth
        (W - max minW ((correctEditorWidth (W - max minW c - rail) (W - max minW c - rail)
          sMW (max minW c)).2.2) - rail)
        (W - max minW ((correctEditorWidth (W - max minW c - rail) (W - max minW c - rail)
          sMW (max minW c)).2.2) - rail)
        sMW
        (max minW ((correctEditorWidth (W - max minW c - rail) (W - max minW c - rail)
          sMW (max minW c)).2.2)) =
      correctEditorWidth (W - max minW c - rail) (W - max minW c - rail) sMW (max minW c) := by
  unfold correctEditorWidth DEFAULT_MIN_SIDEBAR_PART_WIDTH
  simp only [max_def]
  split_ifs <;> (try rfl) <;> (dsimp only at *) <;> simp only [Prod.mk.injEq] <;>
    (repeat' apply And.intro) <;> first | trivial | linarith

/-- Helper: the committed panel height written back by a visible-panel
`layout()` call with a positive committed height is positive (the panel clamp
keeps it above `min(maxPanelHeight, minHeight)` and the correction floor is
77). -/
theorem panel_final_pos (p minH sH sMH : ℚ) (hminH : 0 < minH)
    (hmaxP : DEFAULT_MIN_EDITOR_PART_HEIGHT < sH) :
    0 < (correctEditorHeight
      (sH - min (sH - DEFAULT_MIN_EDITOR_PART_HEIGHT) (max minH p)) sMH
      (min (sH - DEFAULT_MIN_EDITOR_PART_HEIGHT) (max minH p))).2 := by
  unfold DEFAULT_MIN_EDITOR_PART_HEIGHT at hmaxP
  unfold correctEditorHeight DEFAULT_MIN_EDITOR_PART_HEIGHT DEFAULT_MIN_PANEL_PART_HEIGHT
  simp only [min_def, max_def]
  split_ifs <;> dsimp only <;> linarith

set_option maxHeartbeats 2000000 in
/-- Helper: re-running the visible-panel height pipeline from the committed
height it produced yields the same applied pair (editor height, panel height).
This is the vertical half of the idempotence argument. -/
theorem panel_visible_stable (p minH sH sMH : ℚ) :
    correctEditorHeight
        (sH - min (sH - DEFAULT_MIN_EDITOR_PART_HEIGHT)
          (max minH ((correctEditorHeight
            (sH - min (sH - DEFAULT_MIN_EDITOR_PART_HEIGHT) (max minH p)) sMH
            (min (sH - DEFAULT_MIN_EDITOR_PART_HEIGHT) (max minH p))).2))) sMH
        (min (sH - DEFAULT_MIN_EDITOR_PART_HEIGHT)
          (max minH ((correctEditorHeight
            (sH - min (sH - DEFAULT_MIN_EDITOR_PART_HEIGHT) (max minH p)) sMH
            (min (sH - DEFAULT_MIN_EDITOR_PART_HEIGHT) (max minH p))).2))) =
      correctEditorHeight
        (sH - min (sH - DEFAULT_MIN_EDITOR_PART_HEIGHT) (max minH p)) sMH
        (min (sH - DEFAULT_MIN_EDITOR_PART_HEIGHT) (max minH p)) := by
  unfold correctEditorHeight DEFAULT_MIN_EDITOR_PART_HEIGHT DEFAULT_MIN_PANEL_PART_HEIGHT
  simp only [min_def, max_def]
  split_ifs <;> (try rfl) <;> (dsimp only at *) <;> simp only [Prod.mk.injEq] <;>
    (repeat' apply And.intro) <;> first | trivial | linarith

/-- Helper: the applied geometry only depends on the listed layout numbers. -/
theorem layoutApplied_congr (env : Env) (n₂ n₁ : LayoutNums)
    (e1 : n₂.workbenchWidth = n₁.workbenchWidth)
    (e2 : n₂.workbenchHeight = n₁.workbenchHeight)
    (e3 : n₂.titlebarHeight = n₁.titlebarHeight)
    (e4 : n₂.statusbarHeight = n₁.statusbarHeight)
    (e5 : n₂.sidebarHeight = n₁.sidebarHeight)
    (e6 : n₂.activitybarWidth = n₁.activitybarWidth)
    (e7 : n₂.remainderLeft = n₁.remainderLeft)
    (e8 : n₂.remainderRight = n₁.remainderRight)
    (e9 : n₂.editorWidth = n₁.editorWidth)
    (e10 : n₂.panelDimWidth = n₁.panelDimWidth)
    (e11 : n₂.sidebarWidthFinal = n₁.sidebarWidthFinal)
    (e12 : n₂.editorHeight = n₁.editorHeight)
    (e13 : n₂.panelDimHeight = n₁.panelDimHeight) :
    layoutApplied env n₂ = layoutApplied env n₁ := by
  unfold layoutApplied
  rw [e1, e2, e3, e4, e5, e6, e7, e8, e9, e10, e11, e12, e13]

/-- Claim C3 (amended): calling `layout()` twice in a row with no intervening
event produces identical rectangles for all six regions, provided that when
the sidebar is visible its committed width is not the `-1` unset sentinel and
the sidebar style minimum is nonnegative, and that when the panel is visible
its committed height is positive, the panel style minimum is positive, and the
available height (container minus statusbar and titlebar) exceeds the default
editor minimum height. -/
theorem layout_idempotent (env : Env) (s : State)
    (hsb : env.isSidebarHidden = false →
      s.sidebarWidth ≠ -1 ∧ 0 ≤ s.computedStyles.sidebarMinWidth)
    (hpn : env.isPanelHidden = false →
      0 < s.panelHeight ∧ 0 < s.computedStyles.panelMinHeight ∧
      DEFAULT_MIN_EDITOR_PART_HEIGHT < (layoutNums noOptions env s).sidebarHeight) :
    (layout noOptions env (layout noOptions env s).state).applied =
      (layout noOptions env s).applied := by
  simp only [layout]
  cases h1 : env.isSidebarHidden <;> cases h2 : env.isPanelHidden
  · -- sidebar visible, panel visible
    obtain ⟨hc, h0⟩ := hsb h1
    obtain ⟨hp, hminH, hmaxP⟩ := hpn h2
    simp only [layoutNums, noOptions] at hmaxP
    have hne : (correctEditorWidth
        (env.clientWidth - max s.computedStyles.sidebarMinWidth s.sidebarWidth -
          s.computedStyles.activitybarWidth)
        (env.clientWidth - max s.computedStyles.sidebarMinWidth s.sidebarWidth -
          s.computedStyles.activitybarWidth)
        (scaledEditorMinWidth s.computedStyles env.visibleEditorCount
          s.layoutEditorGroupsVertically)
        (max s.computedStyles.sidebarMinWidth s.sidebarWidth)).2.2 ≠ -1 := by
      have h := sidebar_final_nonneg s.sidebarWidth s.computedStyles.sidebarMinWidth
        s.computedStyles.activitybarWidth env.clientWidth
        (scaledEditorMinWidth s.computedStyles env.visibleEditorCount
          s.layoutEditorGroupsVertically) h0
      intro he
      rw [he] at h
      norm_num at h
    have hppos := panel_final_pos s.panelHeight s.computedStyles.panelMinHeight
      (env.clientHeight - (if env.isStatusbarHidden = true then 0
        else s.computedStyles.statusbarHeight) -
       (if env.isTitlebarHidden = true then 0
        else s.initialComputedStyles.titlebarHeight / env.zoomFactor))
      (scaledEditorMinHeight s.computedStyles env.visibleEditorCount
        s.layoutEditorGroupsVertically) hminH hmaxP
    have HW := sidebar_visible_stable s.sidebarWidth s.computedStyles.sidebarMinWidth
      s.computedStyles.activitybarWidth env.clientWidth
      (scaledEditorMinWidth s.computedStyles env.visibleEditorCount
        s.layoutEditorGroupsVertically)
    have HV := panel_visible_stable s.panelHeight s.computedStyles.panelMinHeight
      (env.clientHeight - (if env.isStatusbarHidden = true then 0
        else s.computedStyles.statusbarHeight) -
       (if env.isTitlebarHidden = true then 0
        else s.initialComputedStyles.titlebarHeight / env.zoomFactor))
      (scaledEditorMinHeight s.computedStyles env.visibleEditorCount
        s.layoutEditorGroupsVertically)
    apply layoutApplied_congr <;>
      simp only [layoutNums, layoutState, noOptions, computeSidebarWidth, computePanelHeight,
        applyMaximizeToggle_false, h1, h2, hc, hne, hp, hppos, Bool.false_eq_true, if_false,
        ne_eq, not_false_eq_true, if_true, ite_not] <;>
      first | rfl | rw [HW] | rw [HV]
  · -- sidebar visible, panel hidden
    obtain ⟨hc, h0⟩ := hsb h1
    have hne : (correctEditorWidth
        (env.clientWidth - max s.computedStyles.sidebarMinWidth s.sidebarWidth -
          s.computedStyles.activitybarWidth)
        (env.clientWidth - max s.computedStyles.sidebarMinWidth s.sidebarWidth -
          s.computedStyles.activitybarWidth)
        (scaledEditorMinWidth s.computedStyles env.visibleEditorCount
          s.layoutEditorGroupsVertically)
        (max s.computedStyles.sidebarMinWidth s.sidebarWidth)).2.2 ≠ -1 := by
      have h := sidebar_final_nonneg s.sidebarWidth s.computedStyles.sidebarMinWidth
        s.computedStyles.activitybarWidth env.clientWidth
        (scaledEditorMinWidth s.computedStyles env.visibleEditorCount
          s.layoutEditorGroupsVertically) h0
      intro he
      rw [he] at h
      norm_num at h
    have HW := sidebar_visible_stable s.sidebarWidth s.computedStyles.sidebarMinWidth
      s.computedStyles.activitybarWidth env.clientWidth
      (scaledEditorMinWidth s.computedStyles env.visibleEditorCount
        s.layoutEditorGroupsVertically)
    apply layoutApplied_congr <;>
      simp only [layoutNums, layoutState, noOptions, computeSidebarWidth, computePanelHeight,
        applyMaximizeToggle_false, h1, h2, hc, hne, Bool.false_eq_true, if_false,
        ne_eq, not_false_eq_true, if_true, ite_not] <;>
      first | rfl | rw [HW]
  · -- sidebar hidden, panel visible
    obtain ⟨hp, hminH, hmaxP⟩ := hpn h2
    simp only [layoutNums, noOptions] at hmaxP
    have hppos := panel_final_pos s.panelHeight s.computedStyles.panelMinHeight
      (env.clientHeight - (if env.isStatusbarHidden = true then 0
        else s.computedStyles.statusbarHeight) -
       (if env.isTitlebarHidden = true then 0
        else s.initialComputedStyles.titlebarHeight / env.zoomFactor))
      (scaledEditorMinHeight s.computedStyles env.visibleEditorCount
        s.layoutEditorGroupsVertically) hminH hmaxP
    have HV := panel_visible_stable s.panelHeight s.computedStyles.panelMinHeight
      (env.clientHeight - (if env.isStatusbarHidden = true then 0
        else s.computedStyles.statusbarHeight) -
       (if env.isTitlebarHidden = true then 0
        else s.initialComputedStyles.titlebarHeight / env.zoomFactor))
      (scaledEditorMinHeight s.computedStyles env.visibleEditorCount
        s.layoutEditorGroupsVertically)
    apply layoutApplied_congr <;>
      simp only [layoutNums, layoutState, noOptions, computeSidebarWidth, computePanelHeight,
        applyMaximizeToggle_false, h1, h2, hp, hppos, Bool.false_eq_true, if_false,
        ne_eq, not_false_eq_true, if_true, ite_not] <;>
      first | rfl | rw [HV]
  · -- sidebar hidden, panel hidden
    apply layoutApplied_congr <;>
      simp only [layoutNums, layoutState, noOptions, computeSidebarWidth, computePanelHeight,
        applyMaximizeToggle_false, h1, h2, Bool.false_eq_true, if_false,
        ne_eq, not_false_eq_true, if_true, ite_not]

/-- Counterexample to C3 as stated: from an unset committed sidebar width,
the first `layout()` applies sidebar width 800/5 = 160 and commits it; the
second call re-clamps the now-set 160 to the 170 minimum, so the two calls
produce different sidebar rectangles. -/
theorem layout_idempotent_cex :
    (layout noOptions envFifth (layout noOptions envFifth sSidebarUnset).state).applied.sidebarSize.width ≠
      (layout noOptions envFifth sSidebarUnset).applied.sidebarSize.width := by
  norm_num [layout, layoutNums, layoutApplied, layoutState, computeSidebarWidth,
    computePanelHeight, applyMaximizeToggle, correctEditorWidth, correctEditorHeight,
    scaledEditorMinWidth, scaledEditorMinHeight, envFifth, sSidebarUnset, baseEnv, baseState,
    stylesA, noOptions, jsRound, max_def, min_def, DEFAULT_MIN_SIDEBAR_PART_WIDTH,
    DEFAULT_MIN_PANEL_PART_HEIGHT, DEFAULT_MIN_EDITOR_PART_HEIGHT,
    DEFAULT_MIN_EDITOR_PART_WIDTH, DEFAULT_PANEL_HEIGHT_COEFFICIENT]

/-- Witness for C3 (amended) at the baseline input. -/
theorem layout_idempotent_witness :
    (layout noOptions baseEnv (layout noOptions baseEnv baseState).state).applied =
      (layout noOptions baseEnv baseState).applied :=
  layout_idempotent baseEnv baseState
    (by norm_num [baseEnv, baseState, stylesA])
    (by norm_num [baseEnv, baseState, stylesA, layoutNums, noOptions,
      DEFAULT_MIN_EDITOR_PART_HEIGHT])

/-- Helper: field values of the options constants. -/
theorem noOptions_force : noOptions.forceStyleRecompute = false := rfl

/-- Helper: `noOptions` requests no maximize toggle. -/
theorem noOptions_toggle : noOptions.toggleMaximizedPanel = false := rfl

/-- Helper: `togglePanelOptions` requests no style recompute. -/
theorem togglePanelOptions_force : togglePanelOptions.forceStyleRecompute = false := rfl

/-- Helper: `togglePanelOptions` requests the maximize toggle. -/
theorem togglePanelOptions_toggle : togglePanelOptions.toggleMaximizedPanel = true := rfl

/-- Claim C5 (amended): calling `layout({toggleMaximizedPanel: true})` twice
in a row with no other change restores the applied panel height to the height
a plain `layout()` would have applied before the first toggle, provided the
panel is visible with a positive committed height not already at the clamped
maximum, the panel style minimum is positive and fits under the clamped
maximum, and the scaled editor minimum height is at most the default 70 (so
the height overflow correction stays quiet). -/
theorem layout_toggle_roundtrip (env : Env) (s : State)
    (h2 : env.isPanelHidden = false)
    (hp : 0 < s.panelHeight)
    (hminH : 0 < s.computedStyles.panelMinHeight)
    (hmm : s.computedStyles.panelMinHeight ≤ (layoutNums noOptions env s).maxPanelHeight)
    (hsMH : (layoutNums noOptions env s).editorMinHeight ≤ DEFAULT_MIN_EDITOR_PART_HEIGHT)
    (hb : (layoutNums noOptions env s).panelHeightPreToggle ≠
      (layoutNums noOptions env s).maxPanelHeight) :
    (layout togglePanelOptions env (layout togglePanelOptions env s).state).applied.panelSize.height =
      (layout noOptions env s).applied.panelSize.height := by
  simp only [layoutNums, noOptions, computePanelHeight, h2, hp, Bool.false_eq_true, if_false,
    if_true] at hmm hsMH hb
  have hmaxpos : (0 : ℚ) < (env.clientHeight - (if env.isStatusbarHidden = true then 0
          else s.computedStyles.statusbarHeight) -
        (if env.isTitlebarHidden = true then 0
          else s.initialComputedStyles.titlebarHeight / env.zoomFactor)) -
      DEFAULT_MIN_EDITOR_PART_HEIGHT :=
    lt_of_lt_of_le hminH hmm
  have nf1 : ¬((env.clientHeight - (if env.isStatusbarHidden = true then 0
          else s.computedStyles.statusbarHeight) -
        (if env.isTitlebarHidden = true then 0
          else s.initialComputedStyles.titlebarHeight / env.zoomFactor)) -
      ((env.clientHeight - (if env.isStatusbarHidden = true then 0
          else s.computedStyles.statusbarHeight) -
        (if env.isTitlebarHidden = true then 0
          else s.initialComputedStyles.titlebarHeight / env.zoomFactor)) -
      DEFAULT_MIN_EDITOR_PART_HEIGHT) <
      scaledEditorMinHeight s.computedStyles env.visibleEditorCount
        s.layoutEditorGroupsVertically) := by
    intro hcon
    unfold DEFAULT_MIN_EDITOR_PART_HEIGHT at hcon hsMH
    linarith
  have hble : (min ((env.clientHeight - (if env.isStatusbarHidden = true then 0
          else s.computedStyles.statusbarHeight) -
        (if env.isTitlebarHidden = true then 0
          else s.initialComputedStyles.titlebarHeight / env.zoomFactor)) -
      DEFAULT_MIN_EDITOR_PART_HEIGHT)
      (max s.computedStyles.panelMinHeight s.panelHeight)) ≤
      (env.clientHeight - (if env.isStatusbarHidden = true then 0
          else s.computedStyles.statusbarHeight) -
        (if env.isTitlebarHidden = true then 0
          else s.initialComputedStyles.titlebarHeight / env.zoomFactor)) -
      DEFAULT_MIN_EDITOR_PART_HEIGHT :=
    min_le_left _ _
  have hbge : s.computedStyles.panelMinHeight ≤
      (min ((env.clientHeight - (if env.isStatusbarHidden = true then 0
          else s.computedStyles.statusbarHeight) -
        (if env.isTitlebarHidden = true then 0
          else s.initialComputedStyles.titlebarHeight / env.zoomFactor)) -
      DEFAULT_MIN_EDITOR_PART_HEIGHT)
      (max s.computedStyles.panelMinHeight s.panelHeight)) :=
    le_min hmm (le_max_left _ _)
  have nf0 : ¬((env.clientHeight - (if env.isStatusbarHidden = true then 0
          else s.computedStyles.statusbarHeight) -
        (if env.isTitlebarHidden = true then 0
          else s.initialComputedStyles.titlebarHeight / env.zoomFactor)) -
      (min ((env.clientHeight - (if env.isStatusbarHidden = true then 0
          else s.computedStyles.statusbarHeight) -
        (if env.isTitlebarHidden = true then 0
          else s.initialComputedStyles.titlebarHeight / env.zoomFactor)) -
      DEFAULT_MIN_EDITOR_PART_HEIGHT)
      (max s.computedStyles.panelMinHeight s.panelHeight)) <
      scaledEditorMinHeight s.computedStyles env.visibleEditorCount
        s.layoutEditorGroupsVertically) := by
    intro hcon
    unfold DEFAULT_MIN_EDITOR_PART_HEIGHT at hcon hsMH hble
    linarith
  have A1 : (layout togglePanelOptions env s).state.panelHeight =
      (env.clientHeight - (if env.isStatusbarHidden = true then 0
          else s.computedStyles.statusbarHeight) -
        (if env.isTitlebarHidden = true then 0
          else s.initialComputedStyles.titlebarHeight / env.zoomFactor)) -
      DEFAULT_MIN_EDITOR_PART_HEIGHT := by
    simp only [layout, layoutState, layoutNums, togglePanelOptions_force,
      togglePanelOptions_toggle, computePanelHeight,
      applyMaximizeToggle, h2, hp, Bool.false_eq_true, if_false, if_true, hb,
      correctEditorHeight, nf1]
  have A2 : (layout togglePanelOptions env s).state.panelHeightBeforeMaximized =
      min ((env.clientHeight - (if env.isStatusbarHidden = true then 0
          else s.computedStyles.statusbarHeight) -
        (if env.isTitlebarHidden = true then 0
          else s.initialComputedStyles.titlebarHeight / env.zoomFactor)) -
      DEFAULT_MIN_EDITOR_PART_HEIGHT)
      (max s.computedStyles.panelMinHeight s.panelHeight) := by
    simp only [layout, layoutState, layoutNums, togglePanelOptions_force,
      togglePanelOptions_toggle, computePanelHeight,
      applyMaximizeToggle, h2, hp, Bool.false_eq_true, if_false, if_true, hb]
  have A3 : (layout togglePanelOptions env s).state.computedStyles = s.computedStyles := by
    simp only [layout, layoutState, layoutNums, togglePanelOptions_force, Bool.false_eq_true,
      if_false]
  have A4 : (layout togglePanelOptions env s).state.initialComputedStyles =
      s.initialComputedStyles := by
    simp only [layout, layoutState]
  have A5 : (layout togglePanelOptions env s).state.layoutEditorGroupsVertically =
      s.layoutEditorGroupsVertically := by
    simp only [layout, layoutState]
  have e2 : max s.computedStyles.panelMinHeight
      ((env.clientHeight - (if env.isStatusbarHidden = true then 0
          else s.computedStyles.statusbarHeight) -
        (if env.isTitlebarHidden = true then 0
          else s.initialComputedStyles.titlebarHeight / env.zoomFactor)) -
      DEFAULT_MIN_EDITOR_PART_HEIGHT) =
      (env.clientHeight - (if env.isStatusbarHidden = true then 0
          else s.computedStyles.statusbarHeight) -
        (if env.isTitlebarHidden = true then 0
          else s.initialComputedStyles.titlebarHeight / env.zoomFactor)) -
      DEFAULT_MIN_EDITOR_PART_HEIGHT :=
    max_eq_right hmm
  have e3 : min (min ((env.clientHeight - (if env.isStatusbarHidden = true then 0
          else s.computedStyles.statusbarHeight) -
        (if env.isTitlebarHidden = true then 0
          else s.initialComputedStyles.titlebarHeight / env.zoomFactor)) -
      DEFAULT_MIN_EDITOR_PART_HEIGHT)
      (max s.computedStyles.panelMinHeight s.panelHeight))
      ((env.clientHeight - (if env.isStatusbarHidden = true then 0
          else s.computedStyles.statusbarHeight) -
        (if env.isTitlebarHidden = true then 0
          else s.initialComputedStyles.titlebarHeight / env.zoomFactor)) -
      DEFAULT_MIN_EDITOR_PART_HEIGHT) =
      min ((env.clientHeight - (if env.isStatusbarHidden = true then 0
          else s.computedStyles.statusbarHeight) -
        (if env.isTitlebarHidden = true then 0
          else s.initialComputedStyles.titlebarHeight / env.zoomFactor)) -
      DEFAULT_MIN_EDITOR_PART_HEIGHT)
      (max s.computedStyles.panelMinHeight s.panelHeight) :=
    min_eq_left hble
  have e4 : max s.computedStyles.panelMinHeight
      (min ((env.clientHeight - (if env.isStatusbarHidden = true then 0
          else s.computedStyles.statusbarHeight) -
        (if env.isTitlebarHidden = true then 0
          else s.initialComputedStyles.titlebarHeight / env.zoomFactor)) -
      DEFAULT_MIN_EDITOR_PART_HEIGHT)
      (max s.computedStyles.panelMinHeight s.panelHeight)) =
      min ((env.clientHeight - (if env.isStatusbarHidden = true then 0
          else s.computedStyles.statusbarHeight) -
        (if env.isTitlebarHidden = true then 0
          else s.initialComputedStyles.titlebarHeight / env.zoomFactor)) -
      DEFAULT_MIN_EDITOR_PART_HEIGHT)
      (max s.computedStyles.panelMinHeight s.panelHeight) :=
    max_eq_right hbge
  rw [show (layout noOptions env s).applied.panelSize.height =
      min ((env.clientHeight - (if env.isStatusbarHidden = true then 0
          else s.computedStyles.statusbarHeight) -
        (if env.isTitlebarHidden = true then 0
          else s.initialComputedStyles.titlebarHeight / env.zoomFactor)) -
      DEFAULT_MIN_EDITOR_PART_HEIGHT)
      (max s.computedStyles.panelMinHeight s.panelHeight) from by
    simp only [layout, layoutApplied, layoutNums, noOptions_force, noOptions_toggle,
      computePanelHeight, applyMaximizeToggle_false, correctEditorHeight, h2, hp,
      Bool.false_eq_true, if_false, if_true, nf0]]
  generalize hS : (layout togglePanelOptions env s).state = s1 at A1 A2 A3 A4 A5
  simp only [layout, layoutApplied, layoutNums, layoutState, togglePanelOptions_force,
    togglePanelOptions_toggle, computePanelHeight, applyMaximizeToggle, correctEditorHeight,
    A1, A2, A3, A4, A5, h2, hmaxpos, Bool.false_eq_true, if_false, if_true, min_self,
    e2, e3, e4, nf0]

/-- Counterexample to C5 as stated: with an unset committed panel height (0),
a plain `layout()` would apply 40% of 150 = 60, but after toggling the
maximize twice the applied panel height is 77 (the restore path clamps the
remembered 60 up to the 77 panel minimum), so the round-trip does not restore
the pre-toggle height. -/
theorem layout_toggle_roundtrip_cex :
    (layout togglePanelOptions envRoundtrip
        (layout togglePanelOptions envRoundtrip sPanelUnset).state).applied.panelSize.height ≠
      (layout noOptions envRoundtrip sPanelUnset).applied.panelSize.height := by
  norm_num [layout, layoutNums, layoutApplied, layoutState, computeSidebarWidth,
    computePanelHeight, applyMaximizeToggle, correctEditorWidth, correctEditorHeight,
    scaledEditorMinWidth, scaledEditorMinHeight, envRoundtrip, sPanelUnset, baseEnv,
    baseState, stylesA, noOptions, togglePanelOptions, jsRound, max_def, min_def,
    DEFAULT_MIN_SIDEBAR_PART_WIDTH, DEFAULT_MIN_PANEL_PART_HEIGHT,
    DEFAULT_MIN_EDITOR_PART_HEIGHT, DEFAULT_MIN_EDITOR_PART_WIDTH,
    DEFAULT_PANEL_HEIGHT_COEFFICIENT]

/-- Witness for C5 (amended) at the baseline input (committed panel height
200, maximum 678, panel minimum 77, editor minimum 70). -/
theorem layout_toggle_roundtrip_witness :
    (layout togglePanelOptions baseEnv
        (layout togglePanelOptions baseEnv baseState).state).applied.panelSize.height =
      (layout noOptions baseEnv baseState).applied.panelSize.height :=
  layout_toggle_roundtrip baseEnv baseState
    (by norm_num [baseEnv])
    (by norm_num [baseState])
    (by norm_num [baseState, stylesA])
    (by norm_num [layoutNums, noOptions, baseEnv, baseState, stylesA,
      DEFAULT_MIN_EDITOR_PART_HEIGHT])
    (by norm_num [layoutNums, noOptions, baseEnv, baseState, stylesA, scaledEditorMinHeight,
      DEFAULT_MIN_EDITOR_PART_HEIGHT])
    (by norm_num [layoutNums, noOptions, baseEnv, baseState, stylesA, computePanelHeight,
      max_def, min_def, DEFAULT_MIN_EDITOR_PART_HEIGHT])

end VSLayout
